import Mathlib

/-!
# Workstream engine — verification development

Shallow embedding of the `Workstream` engine of `workstream.py`: the message
and document model, context assembly, the admission gate, the two-call
synthesis commit, and the per-message state transition `process_message`.

The narrative oracle (the `anthropic` client held in `self.client`) is
modelled as an injected capability `OracleClient`: one call takes the model
name, the prompt, and `max_tokens` (temperature is `0` on every call in the
source and is therefore not a parameter) and returns either the text of
`response.content[0]` or an `OracleError` (a raised transport error, or a
malformed/empty response body, both of which surface as exceptions in the
source).

The Python method mutates `self` and can exit by `return` or by an
uncaught exception; the embedding makes this explicit: `process_message`
returns `(Except OracleError Bool) × WorkstreamState`, where the second
component is the object state at the point the method exited (on an
exception, the state at the raise point).
-/

/-- An incoming event message (`IncomingMessage` dataclass). Timestamps are
used by the engine only through their textual rendering inside prompts, so
they are modelled as strings. -/
structure IncomingMessage where
  timestamp : String
  text : String
  stream_id : String
  deriving DecidableEq, Repr

/-- A reference document (`Document` dataclass). `metadata` is a
string-keyed mapping, modelled as an association list. -/
structure Document where
  content : String
  metadata : List (String × String)
  timestamp : String
  deriving DecidableEq, Repr

/-- `m.get(key, dflt)` on a string-keyed mapping: the value at `key`, or
`dflt` when the key is absent (used for the document title lookup with
default `Document`). -/
def metaGet (m : List (String × String)) (key dflt : String) : String :=
  match m.find? (fun p => p.1 == key) with
  | some p => p.2
  | none => dflt

/-- An error from an oracle call: transport failure or malformed/empty
response, both of which are uncaught exceptions at the call site in the
source. -/
structure OracleError where
  msg : String
  deriving DecidableEq, Repr

/-- The narrative-oracle capability (`self.client`). `create model prompt
max_tokens` models `self.client.messages.create(model=..., max_tokens=...,
temperature=0, messages=[prompt])` followed by `response.content[0].text`. -/
structure OracleClient where
  create : String → String → Nat → Except OracleError String

/-- The mutable state of a `Workstream` object. `subscribed_streams` is a
Python `set(streams)`; only membership is ever consulted, so it is modelled
by the underlying list. The oracle client is a capability, passed to
`process_message` separately rather than stored. -/
structure WorkstreamState where
  name : String
  timeline : String
  summary : String
  subscribed_streams : List String
  documents : List Document
  pending_context : List IncomingMessage
  deriving DecidableEq, Repr

/-- `Workstream.__init__`. Python `baseline_docs or []` yields `[]` both
when the argument is `None` and when it is an empty (falsy) list. -/
def Workstream.init (name : String) (streams : List String)
    (baseline_docs : Option (List Document)) : WorkstreamState :=
  { name := name
    timeline := ""
    summary := ""
    subscribed_streams := streams
    documents :=
      match baseline_docs with
      | none => []
      | some l => if l.isEmpty then [] else l
    pending_context := [] }

/-- `Workstream.add_document`. -/
def add_document (s : WorkstreamState) (d : Document) : WorkstreamState :=
  { s with documents := s.documents ++ [d] }

/-- Python `str.strip()`: remove whitespace from both ends. Modelled on the
character list: drop leading whitespace, then drop trailing whitespace. -/
def pyStrip (s : String) : String :=
  ⟨(((s.data.dropWhile Char.isWhitespace).reverse.dropWhile
      Char.isWhitespace).reverse)⟩

/-- The rendering of one document inside the context section: a bracketed
timestamp, the title from the metadata (default `Document`), a colon, and
the content, newline-terminated. -/
def renderDoc (doc : Document) : String :=
  "\n[" ++ doc.timestamp ++ "] " ++ metaGet doc.metadata "title" "Document"
    ++ ":\n" ++ doc.content ++ "\n"

/-- The rendering of one pending message inside the context section:
`f"\n[{msg.timestamp}] {msg.stream_id}: {msg.text}"`. -/
def renderPendingMsg (msg : IncomingMessage) : String :=
  "\n[" ++ msg.timestamp ++ "] " ++ msg.stream_id ++ ": " ++ msg.text

/-- `Workstream._build_context_section`. Python `if self.pending_context:`
is list truthiness, i.e. non-emptiness. -/
def build_context_section (s : WorkstreamState) : String :=
  let context := "\nRelevant Documents:\n"
  let context := s.documents.foldl (fun acc doc => acc ++ renderDoc doc) context
  if s.pending_context.isEmpty then
    context
  else
    s.pending_context.foldl (fun acc msg => acc ++ renderPendingMsg msg)
      (context ++ "\nPending Messages:\n")

/-- The gate decision prompt (`evaluation_prompt` f-string, byte for byte,
with the three interpolations). -/
def evaluation_prompt (s : WorkstreamState) (m : IncomingMessage)
    (context_section : String) : String :=
  "\n        You are evaluating whether a new message should be added to a project timeline.\n\n        Guidelines for adding to timeline:\n        - Message represents significant progress, decisions, or milestones\n        - Contains actionable information or important status updates\n        - Adds new context that future readers would benefit from knowing\n        - Avoid adding routine updates or intermediate steps unless they reveal important context\n\n        Current Timeline: "
    ++ s.timeline
    ++ "\n\n        Context Information: "
    ++ context_section
    ++ "\n\n        New Message:\n        Timestamp: "
    ++ m.timestamp
    ++ "\n        Stream: "
    ++ m.stream_id
    ++ "\n        Message: "
    ++ m.text
    ++ "\n\n        Should this message be added to the timeline? Respond with either:\n        \"ADD\" - If the message should be added to the timeline\n        \"STORE\" - If the message should be stored as context for future reference\n\n        Your response should only be one of these two words.\n        "

/-- The timeline-entry synthesis prompt (`timeline_prompt` f-string). -/
def timeline_prompt (s : WorkstreamState) (m : IncomingMessage)
    (context_section : String) : String :=
  "\n        You are maintaining an append-only timeline of project events. Write updates in a clear, professional style that a project manager would use.\n\n        Guidelines:\n        - Format each entry with timestamp, status, and detailed update\n        - Include relevant links and references\n        - Focus on progress, blockers, decisions, and next steps\n        - Be specific about what was accomplished or what needs attention\n        - Keep tone professional and factual\n        - Incorporate relevant context from documents and pending messages when appropriate\n\n        Example format:\n        [2024-03-01 10:00 AM] Status: In Progress\n        Completed initial architecture review for data pipeline redesign. Key decisions:\n        - Selected Apache Kafka for message queue\n        - Identified necessary schema changes (see: docs.internal/schema/v2)\n        Next steps: Team to begin implementation of consumer services by EOW.\n        Blockers: None currently\n        References: RFC-2023-45, Architecture Diagram (confluence/arch/pipeline-v2)\n\n        Current Timeline: "
    ++ s.timeline
    ++ "\n\n        "
    ++ context_section
    ++ "\n\n        Add this new message as a well-structured update:\n        Timestamp: "
    ++ m.timestamp
    ++ "\n        Message: "
    ++ m.text
    ++ "\n        "

/-- The summary synthesis prompt (`summary_prompt` f-string). -/
def summary_prompt (s : WorkstreamState) (timeline_update : String)
    (context_section : String) : String :=
  "\n        You are maintaining a concise summary of events and progress.\n        Follow these rules:\n        - Keep the summary focused on key updates, changes, and milestones\n        - Maintain a clear narrative of the overall progression\n        - Keep the summary under 300 words\n        - Update based on the new timeline entry while preserving important context\n        - Be objective and factual\n\n        Prior Timeline: "
    ++ s.timeline
    ++ "\n        New Timeline Entry: "
    ++ timeline_update
    ++ "\n        Current Summary: "
    ++ s.summary
    ++ "\n\n        "
    ++ context_section
    ++ "\n        "

/-- `Workstream.process_message`. Exits, in source order:
subscription check (`return False`, no mutation); gate oracle call (an
exception propagates with no mutation); `STORE` branch (append to
`pending_context`, `return False`); the two synthesis oracle calls (an
exception propagates with no mutation, since all writes come after both
calls); the commit (`self.summary = ...; self.timeline += "\n" + ...;
self.pending_context = []; return True`). -/
def process_message (client : OracleClient) (s : WorkstreamState)
    (m : IncomingMessage) : Except OracleError Bool × WorkstreamState :=
  if m.stream_id ∉ s.subscribed_streams then
    (.ok false, s)
  else
    let context_section := build_context_section s
    match client.create "claude-3-5-sonnet-20240620"
        (evaluation_prompt s m context_section) 1 with
    | .error e => (.error e, s)
    | .ok evalText =>
      let should_add := pyStrip evalText == "ADD"
      if !should_add then
        (.ok false, { s with pending_context := s.pending_context ++ [m] })
      else
        match client.create "claude-3-5-sonnet-20240620"
            (timeline_prompt s m context_section) 1000 with
        | .error e => (.error e, s)
        | .ok timeline_update =>
          match client.create "claude-3-sonnet-20240229"
              (summary_prompt s timeline_update context_section) 1000 with
          | .error e => (.error e, s)
          | .ok summary_text =>
            (.ok true,
              { s with
                summary := summary_text
                timeline := s.timeline ++ "\n" ++ timeline_update
                pending_context := [] })

/-- Concatenation of the renderings of a list, in list order (used to state
how the context section is composed). -/
def joinMap {α : Type} (f : α → String) : List α → String
  | [] => ""
  | x :: l => f x ++ joinMap f l

/-- A concrete workstream state used to instantiate the theorems below. -/
def cState : WorkstreamState :=
  { name := "ws"
    timeline := ""
    summary := ""
    subscribed_streams := ["svc"]
    documents := []
    pending_context := [] }

/-- A concrete subscribed message. -/
def cMsg : IncomingMessage := { timestamp := "t0", text := "hello", stream_id := "svc" }

/-- A concrete message on a stream that is not subscribed. -/
def cMsgOther : IncomingMessage :=
  { timestamp := "t1", text := "off-stream", stream_id := "other" }

/-- An oracle whose every call raises a transport error. -/
def failClient : OracleClient := ⟨fun _ _ _ => .error ⟨"transport error"⟩⟩

/-- An oracle answering the gate call (the only call with `max_tokens = 1`)
with `gate`, the timeline-entry call with `entry`, and the summary call
(the only call on the second model) with `summ`. -/
def scripted (gate entry summ : Except OracleError String) : OracleClient :=
  ⟨fun model _ maxTokens =>
    if maxTokens == 1 then gate
    else if model == "claude-3-5-sonnet-20240620" then entry
    else summ⟩

/-- An oracle that admits the message and answers both synthesis calls. -/
def okClient : OracleClient := scripted (.ok "ADD") (.ok "E") (.ok "S")

/-- An oracle that admits the message but fails the timeline-entry call. -/
def entryFailClient : OracleClient := scripted (.ok "ADD") (.error ⟨"boom"⟩) (.ok "S")

/-- An oracle whose gate answer is lowercase `add`. -/
def lowerClient : OracleClient := ⟨fun _ _ _ => .ok "add"⟩

/-- An oracle whose gate answer is `ADD` surrounded by whitespace. -/
def wsAddClient : OracleClient := scripted (.ok " ADD ") (.ok "E") (.ok "S")

/-- An oracle whose gate answer is `STORE`. -/
def storeClient : OracleClient := ⟨fun _ _ _ => .ok "STORE"⟩

/-- An oracle whose gate answer is text outside the two-token vocabulary. -/
def unrecClient : OracleClient := scripted (.ok "MAYBE") (.ok "E") (.ok "S")

/-- The state committed by `okClient` from `cState` on `cMsg`. -/
def committedState : WorkstreamState :=
  { name := "ws"
    timeline := "\nE"
    summary := "S"
    subscribed_streams := ["svc"]
    documents := []
    pending_context := [] }

/-- Helper: a left fold that appends the rendering of each element equals the
accumulator followed by the concatenation of the renderings in list order. -/
theorem foldl_append_joinMap {α : Type} (f : α → String) (l : List α) :
    ∀ acc : String, l.foldl (fun a x => a ++ f x) acc = acc ++ joinMap f l := by
  induction l with
  | nil => intro acc; simp [joinMap, String.append_empty]
  | cons x t ih =>
    intro acc
    simp only [List.foldl_cons, joinMap]
    rw [ih, String.append_assoc]

/-- Claim C1, counterexample. The claim says a failed gate oracle call is
treated as `ADD` (fail-open) through an explicit fallback, with synthesis
proceeding and no failure reaching the caller; and likewise for unrecognized
gate text. On the code: a raised gate call propagates to the caller as an
error with no state change and no synthesis, and the unrecognized answer
`MAYBE` sends the message to the pending buffer (`STORE` behaviour), not to
the timeline. -/
theorem gate_not_fail_open_counterexample :
    process_message failClient cState cMsg = (.error ⟨"transport error"⟩, cState) ∧
    process_message unrecClient cState cMsg =
      (.ok false, { cState with pending_context := [cMsg] }) :=
  ⟨rfl, rfl⟩

/-- Claim C1, amended: for a subscribed message, a failed gate oracle call
makes `process_message` fail with that very error and leaves the state
unchanged (fail-closed propagation, no fallback), and a successful gate
answer other than exactly `ADD` after stripping buffers the message as
`STORE`. -/
theorem gate_failure_propagates (client : OracleClient) (s : WorkstreamState)
    (m : IncomingMessage)
    (hsub : m.stream_id ∈ s.subscribed_streams) :
    (∀ e, client.create "claude-3-5-sonnet-20240620"
        (evaluation_prompt s m (build_context_section s)) 1 = .error e →
      process_message client s m = (.error e, s)) ∧
    (∀ raw, client.create "claude-3-5-sonnet-20240620"
        (evaluation_prompt s m (build_context_section s)) 1 = .ok raw →
      pyStrip raw ≠ "ADD" →
      process_message client s m =
        (.ok false, { s with pending_context := s.pending_context ++ [m] })) := by
  constructor
  · intro e he
    simp only [process_message]
    rw [if_neg (not_not_intro hsub), he]
  · intro raw hraw hne
    simp only [process_message]
    rw [if_neg (not_not_intro hsub), hraw]
    simp [hne]

/-- Claim C1, witness for `gate_failure_propagates` at a concrete subscribed
message and an always-failing oracle. -/
theorem gate_failure_propagates_witness :
    cMsg.stream_id ∈ cState.subscribed_streams ∧
    process_message failClient cState cMsg = (.error ⟨"transport error"⟩, cState) :=
  ⟨by decide,
    (gate_failure_propagates failClient cState cMsg (by decide)).1
      ⟨"transport error"⟩ rfl⟩

/-- Claim C2: for a subscribed message admitted by the gate, if the
timeline-entry oracle call fails, or it succeeds and the summary oracle call
fails, then `process_message` fails and the whole state — in particular
`timeline`, `summary` and `pending_context` — is exactly its pre-call value
(no partial commit). -/
theorem synthesis_failure_atomic (client : OracleClient) (s : WorkstreamState)
    (m : IncomingMessage) (raw : String)
    (hsub : m.stream_id ∈ s.subscribed_streams)
    (hgate : client.create "claude-3-5-sonnet-20240620"
      (evaluation_prompt s m (build_context_section s)) 1 = .ok raw)
    (hadd : pyStrip raw = "ADD")
    (hfail : (∃ e, client.create "claude-3-5-sonnet-20240620"
          (timeline_prompt s m (build_context_section s)) 1000 = .error e) ∨
        (∃ entry e, client.create "claude-3-5-sonnet-20240620"
            (timeline_prompt s m (build_context_section s)) 1000 = .ok entry ∧
          client.create "claude-3-sonnet-20240229"
            (summary_prompt s entry (build_context_section s)) 1000 = .error e)) :
    (∃ e, (process_message client s m).1 = Except.error e) ∧
      (process_message client s m).2 = s := by
  simp only [process_message]
  rw [if_neg (not_not_intro hsub), hgate]
  rcases hfail with ⟨e, he⟩ | ⟨entry, e, hentry, he⟩
  · simp [hadd, he]
  · simp [hadd, hentry, he]

/-- Claim C2, witness for `synthesis_failure_atomic`: gate admits, the
timeline-entry call fails, the state is unchanged. -/
theorem synthesis_failure_atomic_witness :
    cMsg.stream_id ∈ cState.subscribed_streams ∧ pyStrip "ADD" = "ADD" ∧
    ((∃ e, (process_message entryFailClient cState cMsg).1 = Except.error e) ∧
      (process_message entryFailClient cState cMsg).2 = cState) :=
  ⟨by decide, by decide,
    synthesis_failure_atomic entryFailClient cState cMsg "ADD" (by decide) rfl
      (by decide) (.inl ⟨⟨"boom"⟩, rfl⟩)⟩

/-- Claim C3: a message whose stream is not subscribed makes
`process_message` return false with the state (timeline, summary,
pending buffer, documents — the whole record) exactly unchanged; the result
holds for every oracle client, so no oracle call can influence it. -/
theorem not_subscribed_no_state_change (client : OracleClient)
    (s : WorkstreamState) (m : IncomingMessage)
    (h : m.stream_id ∉ s.subscribed_streams) :
    process_message client s m = (.ok false, s) := by
  simp only [process_message]
  rw [if_pos h]

/-- Claim C3, witness for `not_subscribed_no_state_change` at a concrete
message on an unsubscribed stream. -/
theorem not_subscribed_no_state_change_witness :
    cMsgOther.stream_id ∉ cState.subscribed_streams ∧
    process_message failClient cState cMsgOther = (.ok false, cState) :=
  ⟨by decide, not_subscribed_no_state_change failClient cState cMsgOther (by decide)⟩

/-- Claim C4: whenever `process_message` commits (returns true), the new
timeline is exactly the prior timeline, then a newline, then the synthesized
entry; hence the prior timeline is a strict prefix of the new one (never
shortened, never reordered). Iterating this over any sequence of successful
ADD outcomes makes each timeline value a strict prefix-extension of the
previous one. -/
theorem timeline_strictly_extends_on_commit (client : OracleClient)
    (s : WorkstreamState) (m : IncomingMessage) (s' : WorkstreamState)
    (h : process_message client s m = (.ok true, s')) :
    ∃ entry, s'.timeline = s.timeline ++ "\n" ++ entry ∧
      s.timeline.data <+: s'.timeline.data ∧
      s.timeline.length < s'.timeline.length := by
  simp only [process_message] at h
  split at h
  · simp at h
  · split at h
    · simp at h
    · split at h
      · simp at h
      · split at h
        · simp at h
        · split at h
          · simp at h
          · simp only [Prod.mk.injEq] at h
            obtain ⟨-, rfl⟩ := h
            refine ⟨_, rfl, ?_, ?_⟩
            · simp only [String.data_append, List.append_assoc]
              exact List.prefix_append _ _
            · simp only [String.length_append]
              have h1 : ("\n" : String).length = 1 := rfl
              omega

/-- Claim C4, witness for `timeline_strictly_extends_on_commit` at a
concrete committing run. -/
theorem timeline_strictly_extends_on_commit_witness :
    process_message okClient cState cMsg = (.ok true, committedState) ∧
    ∃ entry, committedState.timeline = cState.timeline ++ "\n" ++ entry ∧
      cState.timeline.data <+: committedState.timeline.data ∧
      cState.timeline.length < committedState.timeline.length :=
  ⟨rfl, timeline_strictly_extends_on_commit okClient cState cMsg committedState rfl⟩

/-- Claim C5, counterexample. The claim says the gate uppercases the raw
response before comparing, so a response differing from `ADD` only in letter
case is treated as `ADD`. On the code the comparison is
`response.strip() == "ADD"` with no case folding: the lowercase answer `add`
is treated as `STORE` — the message is buffered, not admitted. -/
theorem gate_no_case_fold_counterexample :
    pyStrip "add" ≠ "ADD" ∧
    process_message lowerClient cState cMsg =
      (.ok false, { cState with pending_context := [cMsg] }) :=
  ⟨by decide, rfl⟩

/-- Claim C5, amended: the gate normalizes the raw gate response by
stripping surrounding whitespace only (no case folding) and compares the
result against the single token `ADD`: if the stripped response is `ADD`
the message is admitted (synthesis is attempted, ending in a commit or in a
propagated synthesis error), otherwise — including a case-differing answer —
it is buffered as `STORE`. -/
theorem gate_strip_only_normalization (client : OracleClient)
    (s : WorkstreamState) (m : IncomingMessage) (raw : String)
    (hsub : m.stream_id ∈ s.subscribed_streams)
    (hgate : client.create "claude-3-5-sonnet-20240620"
      (evaluation_prompt s m (build_context_section s)) 1 = .ok raw) :
    (pyStrip raw = "ADD" →
      (∃ e, (process_message client s m).1 = Except.error e) ∨
      (∃ entry summ, process_message client s m =
        (.ok true,
          { s with
              summary := summ
              timeline := s.timeline ++ "\n" ++ entry
              pending_context := [] }))) ∧
    (pyStrip raw ≠ "ADD" →
      process_message client s m =
        (.ok false, { s with pending_context := s.pending_context ++ [m] })) := by
  constructor
  · intro hadd
    simp only [process_message]
    rw [if_neg (not_not_intro hsub), hgate]
    cases h1 : client.create "claude-3-5-sonnet-20240620"
        (timeline_prompt s m (build_context_section s)) 1000 with
    | error e => left; simp [hadd, h1]
    | ok entry =>
      cases h2 : client.create "claude-3-sonnet-20240229"
          (summary_prompt s entry (build_context_section s)) 1000 with
      | error e => left; simp [hadd, h1, h2]
      | ok summ =>
        right
        refine ⟨entry, summ, ?_⟩
        simp [hadd, h1, h2]
  · intro hne
    simp only [process_message]
    rw [if_neg (not_not_intro hsub), hgate]
    simp [hne]

/-- Claim C5, witness for `gate_strip_only_normalization`: a gate answer of
`ADD` surrounded by whitespace is admitted. -/
theorem gate_strip_only_normalization_witness :
    cMsg.stream_id ∈ cState.subscribed_streams ∧ pyStrip " ADD " = "ADD" ∧
    ((∃ e, (process_message wsAddClient cState cMsg).1 = Except.error e) ∨
      (∃ entry summ, process_message wsAddClient cState cMsg =
        (.ok true,
          { cState with
              summary := summ
              timeline := cState.timeline ++ "\n" ++ entry
              pending_context := [] }))) :=
  ⟨by decide, by decide,
    (gate_strip_only_normalization wsAddClient cState cMsg " ADD "
      (by decide) rfl).1 (by decide)⟩

/-- Claim C6: for a subscribed message admitted by the gate with both
synthesis calls succeeding, `process_message` returns true, the summary is
fully replaced by the newly synthesized summary text, the timeline is
extended with the new entry, and `pending_context` is empty after the
commit. -/
theorem commit_replaces_summary_clears_pending (client : OracleClient)
    (s : WorkstreamState) (m : IncomingMessage) (raw entry summ : String)
    (hsub : m.stream_id ∈ s.subscribed_streams)
    (hgate : client.create "claude-3-5-sonnet-20240620"
      (evaluation_prompt s m (build_context_section s)) 1 = .ok raw)
    (hadd : pyStrip raw = "ADD")
    (hentry : client.create "claude-3-5-sonnet-20240620"
      (timeline_prompt s m (build_context_section s)) 1000 = .ok entry)
    (hsumm : client.create "claude-3-sonnet-20240229"
      (summary_prompt s entry (build_context_section s)) 1000 = .ok summ) :
    process_message client s m =
      (.ok true,
        { s with
            summary := summ
            timeline := s.timeline ++ "\n" ++ entry
            pending_context := [] }) := by
  simp only [process_message]
  rw [if_neg (not_not_intro hsub), hgate]
  simp [hadd, hentry, hsumm]

/-- Claim C6, witness for `commit_replaces_summary_clears_pending` at a
concrete admitted message with scripted synthesis answers. -/
theorem commit_replaces_summary_clears_pending_witness :
    cMsg.stream_id ∈ cState.subscribed_streams ∧
    process_message okClient cState cMsg =
      (.ok true,
        { cState with
            summary := "S"
            timeline := cState.timeline ++ "\n" ++ "E"
            pending_context := [] }) :=
  ⟨by decide,
    commit_replaces_summary_clears_pending okClient cState cMsg "ADD" "E" "S"
      (by decide) rfl (by decide) rfl rfl⟩

/-- Claim C7: for a subscribed message on which the gate decides `STORE`
(stripped answer other than `ADD`), `process_message` appends exactly that
message at the end of `pending_context`, returns false, and every other
field — timeline, summary, documents, name, subscriptions — is unchanged
(the state is the old one with only `pending_context` extended). -/
theorem store_appends_message_to_pending (client : OracleClient)
    (s : WorkstreamState) (m : IncomingMessage) (raw : String)
    (hsub : m.stream_id ∈ s.subscribed_streams)
    (hgate : client.create "claude-3-5-sonnet-20240620"
      (evaluation_prompt s m (build_context_section s)) 1 = .ok raw)
    (hstore : pyStrip raw ≠ "ADD") :
    process_message client s m =
      (.ok false, { s with pending_context := s.pending_context ++ [m] }) := by
  simp only [process_message]
  rw [if_neg (not_not_intro hsub), hgate]
  simp [hstore]

/-- Claim C7, witness for `store_appends_message_to_pending` at a concrete
message with gate answer `STORE`. -/
theorem store_appends_message_to_pending_witness :
    cMsg.stream_id ∈ cState.subscribed_streams ∧ pyStrip "STORE" ≠ "ADD" ∧
    process_message storeClient cState cMsg =
      (.ok false, { cState with pending_context := cState.pending_context ++ [cMsg] }) :=
  ⟨by decide, by decide,
    store_appends_message_to_pending storeClient cState cMsg "STORE"
      (by decide) rfl (by decide)⟩

/-- Claim C8: the assembled context decomposes as the documents section —
the header followed by the renderings of the documents concatenated in
insertion order — followed by the pending-updates section, which is present
exactly when `pending_context` is non-empty and then consists of its header
followed by the renderings of the pending messages concatenated in
insertion order; neither list is ever reordered. -/
theorem context_section_composition (s : WorkstreamState) :
    build_context_section s =
      "\nRelevant Documents:\n" ++ joinMap renderDoc s.documents
        ++ (if s.pending_context.isEmpty then ""
            else "\nPending Messages:\n" ++ joinMap renderPendingMsg s.pending_context) := by
  simp only [build_context_section, foldl_append_joinMap]
  split
  next h => simp [h, String.append_empty]
  next h => simp [h, String.append_assoc]

/-- Claim C9: immediately after construction, the timeline and summary are
the empty string, the pending buffer is empty, the documents are the
provided baseline (empty when none is provided), and name and subscriptions
are the constructor arguments. -/
theorem init_state_fields (name : String) (streams : List String)
    (baseline_docs : Option (List Document)) :
    (Workstream.init name streams baseline_docs).timeline = "" ∧
    (Workstream.init name streams baseline_docs).summary = "" ∧
    (Workstream.init name streams baseline_docs).pending_context = [] ∧
    (Workstream.init name streams baseline_docs).documents = baseline_docs.getD [] ∧
    (Workstream.init name streams baseline_docs).name = name ∧
    (Workstream.init name streams baseline_docs).subscribed_streams = streams := by
  refine ⟨rfl, rfl, rfl, ?_, rfl, rfl⟩
  cases baseline_docs with
  | none => rfl
  | some l => cases l <;> rfl

/-- Claim C10: `add_document` appends exactly the given document at the end
of the document list and leaves name, subscriptions, timeline, summary and
pending buffer unchanged. -/
theorem add_document_appends_only (s : WorkstreamState) (d : Document) :
    (add_document s d).documents = s.documents ++ [d] ∧
    (add_document s d).name = s.name ∧
    (add_document s d).subscribed_streams = s.subscribed_streams ∧
    (add_document s d).timeline = s.timeline ∧
    (add_document s d).summary = s.summary ∧
    (add_document s d).pending_context = s.pending_context :=
  ⟨rfl, rfl, rfl, rfl, rfl, rfl⟩
